import Mathlib

/-!
Shallow embedding of the connection/session-management subsystem of the
device-telemetry backend (`backend/websocket/handler.py`,
`backend/devices/manager.py`, `backend/storage/database.py`,
`backend/models.py`).

Conventions of the embedding:
* Python dicts keyed by strings (JSON message envelopes, broadcast payloads)
  become `List (String × JVal)` with a JSON-like value type `JVal`.
* CPython string-keyed dicts used as maps (`device_connections`, `sessions`)
  become association lists with dict semantics (`dictGet`/`dictSet`/`dictDel`).
* `datetime.utcnow()` becomes an explicit `now : Nat` argument (milliseconds).
* Random UUIDs for stored rows become a `nextId` counter in the store.
* External effects with no source in the repository (the base64 library
  decoder, database-commit success/failure, socket-send success/failure) are
  parameters of an `Env` record: `b64decode` is an arbitrary partial
  function, the `…Ok` fields say whether the corresponding external call
  raises. All control flow on those outcomes follows the Python source.
* Python floats (`lat`, `lon`, `accuracy`) are modelled as `ℚ`; the handlers
  under study never do arithmetic or comparisons on them, so the
  float/rational distinction is immaterial to every statement proved here.
* Pydantic parsing (`CameraFrame(**message)`, `LocationUpdate(**message)`)
  is modelled by explicit field lookups with the required types; pydantic
  v1's numeric string coercions are not modelled (no claim depends on them).
-/

/-- JSON-like values: the payloads the Python code builds as dict literals. -/
inductive JVal where
  | s (v : String)
  | i (v : Int)
  | q (v : Rat)
  | b (v : Bool)
  | nul
  | obj (fields : List (String × JVal))
  | arr (items : List JVal)

/-- A decoded JSON message envelope (a Python dict). -/
abbrev RMsg := List (String × JVal)

/-- `d.get(k)` on a Python dict. -/
def jGet (m : RMsg) (k : String) : Option JVal :=
  (m.find? (fun p => p.1 == k)).map (·.2)

/-- Extract a string value (pydantic `str` field). -/
def jStr? : Option JVal → Option String
  | some (.s v) => some v
  | _ => none

/-- Extract an integer value (pydantic `int` field). -/
def jInt? : Option JVal → Option Int
  | some (.i v) => some v
  | _ => none

/-- Extract a numeric value (pydantic `float` field: accepts int or float). -/
def jNum? : Option JVal → Option Rat
  | some (.q v) => some v
  | some (.i v) => some (v : Rat)
  | _ => none

/-! ### Association lists with CPython-dict semantics -/

/-- `d[k]` lookup (`k in d` is `(dictGet k d).isSome`). -/
def dictGet {α : Type} (k : String) (l : List (String × α)) : Option α :=
  (l.find? (fun p => p.1 == k)).map (·.2)

/-- `d[k] = v`: replace in place if the key is present, else append. -/
def dictSet {α : Type} (k : String) (v : α) (l : List (String × α)) :
    List (String × α) :=
  if l.any (fun p => p.1 == k) then
    l.map (fun p => if p.1 == k then (k, v) else p)
  else
    l ++ [(k, v)]

/-- `del d[k]`. -/
def dictDel {α : Type} (k : String) (l : List (String × α)) :
    List (String × α) :=
  l.filter (fun p => !(p.1 == k))

/-! ### Pydantic models (`backend/models.py`) -/

/-- `DeviceInfo` (`backend/models.py`). -/
structure DeviceInfo where
  id : String
  name : String
  imei : Option String := none
  model : String
  manufacturer : String
  android_version : String
  sdk : Int

/-- `DeviceSession` (`backend/models.py`). `location` stores the dict the
handler passes (`location.dict()`). -/
structure DeviceSession where
  device_id : String
  device_name : String
  imei : Option String := none
  model : String := ""
  manufacturer : String := ""
  android_version : String := ""
  connected_at : Nat
  last_activity : Nat
  current_camera : String := "back"
  location : Option (List (String × JVal)) := none
  battery_level : Option Int := none
  is_online : Bool := true

/-- `CameraFrame` message model (`backend/models.py`). -/
structure CameraFrame where
  camera : String
  data : String
  width : Int
  height : Int
  timestamp : Int

/-- `LocationUpdate` message model (`backend/models.py`). Note: the model has
no range validators on `lat`/`lon`. -/
structure LocationUpdate where
  lat : Rat
  lon : Rat
  accuracy : Option Rat := none
  timestamp : Int

/-- `DeviceCommand` (`backend/models.py`). -/
structure DeviceCommand where
  command : String
  data : List (String × JVal) := []

/-- `CameraFrame(**message)`: pydantic parse of the required fields
(extra keys such as `type` are ignored). -/
def CameraFrame.parse (m : RMsg) : Option CameraFrame := do
  let camera ← jStr? (jGet m "camera")
  let data ← jStr? (jGet m "data")
  let width ← jInt? (jGet m "width")
  let height ← jInt? (jGet m "height")
  let timestamp ← jInt? (jGet m "timestamp")
  pure { camera := camera, data := data, width := width, height := height,
         timestamp := timestamp }

/-- `LocationUpdate(**message)`: pydantic parse; `accuracy` is optional and
may be absent or null. -/
def LocationUpdate.parse (m : RMsg) : Option LocationUpdate := do
  let lat ← jNum? (jGet m "lat")
  let lon ← jNum? (jGet m "lon")
  let accuracy ← match jGet m "accuracy" with
    | none => some none
    | some JVal.nul => some none
    | some v => (jNum? (some v)).map some
  let timestamp ← jInt? (jGet m "timestamp")
  pure { lat := lat, lon := lon, accuracy := accuracy, timestamp := timestamp }

/-- `device_info.dict()`. -/
def DeviceInfo.toJ (i : DeviceInfo) : List (String × JVal) :=
  [("id", .s i.id), ("name", .s i.name),
   ("imei", match i.imei with | some v => .s v | none => .nul),
   ("model", .s i.model), ("manufacturer", .s i.manufacturer),
   ("android_version", .s i.android_version), ("sdk", .i i.sdk)]

/-- `location.dict()`. -/
def LocationUpdate.toJ (l : LocationUpdate) : List (String × JVal) :=
  [("lat", .q l.lat), ("lon", .q l.lon),
   ("accuracy", match l.accuracy with | some a => .q a | none => .nul),
   ("timestamp", .i l.timestamp)]

/-- `session.dict()`. -/
def DeviceSession.toJ (s : DeviceSession) : List (String × JVal) :=
  [("device_id", .s s.device_id), ("device_name", .s s.device_name),
   ("imei", match s.imei with | some v => .s v | none => .nul),
   ("model", .s s.model), ("manufacturer", .s s.manufacturer),
   ("android_version", .s s.android_version),
   ("connected_at", .i (s.connected_at : Int)),
   ("last_activity", .i (s.last_activity : Int)),
   ("current_camera", .s s.current_camera),
   ("location", match s.location with | some l => .obj l | none => .nul),
   ("battery_level", match s.battery_level with | some b => .i b | none => .nul),
   ("is_online", .b s.is_online)]

/-- `command.dict()`. -/
def DeviceCommand.toJ (c : DeviceCommand) : List (String × JVal) :=
  [("command", .s c.command), ("data", .obj c.data)]

/-! ### Record Store rows (`backend/database/models.py`) -/

/-- `Device` row (`backend/database/models.py`). -/
structure Device where
  id : String
  name : String
  token : String
  imei : Option String := none
  model : Option String := none
  manufacturer : Option String := none
  android_version : Option String := none
  sdk : Option Int := none
  created_at : Nat
  last_seen : Nat
  is_active : Bool := true

/-- `CameraFrame` row (`backend/database/models.py`); `id` is the surrogate
for the random UUID primary key. -/
structure CameraFrameRow where
  id : Nat
  device_id : String
  camera : String
  frame_data : List Nat
  width : Int
  height : Int
  timestamp : Int
  created_at : Nat

/-- `LocationHistory` row (`backend/database/models.py`). -/
structure LocationRow where
  id : Nat
  device_id : String
  lat : Rat
  lon : Rat
  accuracy : Option Rat := none
  timestamp : Int
  created_at : Nat

/-- `DeviceEvent` row (`backend/database/models.py`);
`event_data or {}` is stored, so the payload is always a dict. -/
structure DeviceEventRow where
  id : Nat
  device_id : String
  event_type : String
  event_data : List (String × JVal) := []
  timestamp : Int
  created_at : Nat

/-- The Record Store state (`DatabaseStorage`, `backend/storage/database.py`),
with `nextId` as the fresh-UUID supply. -/
structure Storage where
  devices : List Device := []
  frames : List CameraFrameRow := []
  locations : List LocationRow := []
  events : List DeviceEventRow := []
  nextId : Nat := 0

/-- `DatabaseStorage.get_device` (`backend/storage/database.py`). -/
def Storage.get_device (st : Storage) (device_id : String) : Option Device :=
  st.devices.find? (fun d => d.id == device_id)

/-- `DatabaseStorage.create_device` (`backend/storage/database.py`). -/
def Storage.create_device (st : Storage) (now : Nat) (device_id name token : String)
    (imei model manufacturer android_version : Option String)
    (sdk : Option Int) : Storage :=
  { st with devices := st.devices ++
      [{ id := device_id, name := name, token := token, imei := imei,
         model := model, manufacturer := manufacturer,
         android_version := android_version, sdk := sdk,
         created_at := now, last_seen := now, is_active := true }] }

/-- One `setattr` of the `update_device` kwargs loop: a `None` value is
skipped (`if hasattr(device, key) and value is not None`). -/
def setIfSome {α : Type} (old : α) (new : Option α) : α :=
  match new with
  | some v => v
  | none => old

/-- `DatabaseStorage.update_device` (`backend/storage/database.py`),
specialised to the keyword arguments the session manager passes: each
non-`None` value overwrites the field, `token` is never among them, and
`last_seen` is always refreshed. Returns the store unchanged when the device
is absent. -/
def Storage.update_device (st : Storage) (now : Nat) (device_id : String)
    (name imei model manufacturer android_version : Option String)
    (sdk : Option Int) : Storage :=
  if (st.get_device device_id).isSome then
    { st with devices := st.devices.map (fun d =>
        if d.id == device_id then
          { d with name := setIfSome d.name name,
                   imei := setIfSome d.imei (imei.map some),
                   model := setIfSome d.model (model.map some),
                   manufacturer := setIfSome d.manufacturer (manufacturer.map some),
                   android_version := setIfSome d.android_version (android_version.map some),
                   sdk := setIfSome d.sdk (sdk.map some),
                   last_seen := now }
        else d) }
  else st

/-- `DatabaseStorage.save_camera_frame` (`backend/storage/database.py`). -/
def Storage.save_camera_frame (st : Storage) (now : Nat) (device_id camera : String)
    (frame_data : List Nat) (width height : Int) (timestamp : Int) : Storage :=
  { st with
      frames := st.frames ++
        [{ id := st.nextId, device_id := device_id, camera := camera,
           frame_data := frame_data, width := width, height := height,
           timestamp := timestamp, created_at := now }],
      nextId := st.nextId + 1 }

/-- One step of the timestamp maximum underlying `ORDER BY timestamp DESC
LIMIT 1`: keep the candidate with the larger device timestamp. -/
def laterFrame (best : Option CameraFrameRow) (f : CameraFrameRow) :
    Option CameraFrameRow :=
  match best with
  | none => some f
  | some b => if b.timestamp < f.timestamp then some f else some b

/-- `DatabaseStorage.get_latest_frame` (`backend/storage/database.py`):
`SELECT … WHERE device_id = ? AND camera = ? ORDER BY timestamp DESC LIMIT 1`.
Among rows tied for the maximal timestamp SQL leaves the choice unspecified;
the model returns the earliest-stored one. -/
def Storage.get_latest_frame (st : Storage) (device_id camera : String) :
    Option CameraFrameRow :=
  (st.frames.filter (fun f => f.device_id == device_id && f.camera == camera)).foldl
    laterFrame none

/-- `DatabaseStorage.save_location` (`backend/storage/database.py`). -/
def Storage.save_location (st : Storage) (now : Nat) (device_id : String)
    (lat lon : Rat) (accuracy : Option Rat) (timestamp : Int) : Storage :=
  { st with
      locations := st.locations ++
        [{ id := st.nextId, device_id := device_id, lat := lat, lon := lon,
           accuracy := accuracy, timestamp := timestamp, created_at := now }],
      nextId := st.nextId + 1 }

/-- `DatabaseStorage.log_device_event` (`backend/storage/database.py`):
the event timestamp defaults to the current time in milliseconds. -/
def Storage.log_device_event (st : Storage) (now : Nat) (device_id event_type : String)
    (event_data : List (String × JVal)) (timestamp : Option Int) : Storage :=
  { st with
      events := st.events ++
        [{ id := st.nextId, device_id := device_id, event_type := event_type,
           event_data := event_data,
           timestamp := timestamp.getD (now : Int), created_at := now }],
      nextId := st.nextId + 1 }

/-! ### Connection and world state -/

/-- `DeviceConnection` (`backend/websocket/handler.py`); the websocket handle
is a socket identifier. -/
structure DeviceConnection where
  device_id : String
  device_name : String
  websocket : Nat
  last_seen : Nat

/-- The combined mutable state of the process: the Record Store, the
`SessionManager.sessions` map, and the `WebSocketManager` connection maps. -/
structure World where
  storage : Storage := {}
  sessions : List (String × DeviceSession) := []
  device_connections : List (String × DeviceConnection) := []
  admin_connections : List Nat := []

/-- The environment of one operation: current time plus the outcomes of the
external calls (base64 library, database commits, socket sends) made while
handling it. `saveFrameOk`, `saveLocOk` and `logEventOk` say whether the
database insert behind `save_camera_frame`, `save_location` and
`log_device_event` commits or raises on the message-dispatch path, where the
handlers catch the exception; event logs issued outside the dispatcher
(register, disconnect, command send) are modelled as committing — a raise
there propagates out of the hub to the endpoint loop rather than being
contained by a handler, a path outside this development's dispatch
properties. -/
structure Env where
  now : Nat
  b64decode : String → Option (List Nat)
  saveFrameOk : Bool := true
  saveLocOk : Bool := true
  logEventOk : Bool := true
  adminSendOk : Nat → Bool
  deviceSendOk : Nat → Bool

/-! ### SessionManager (`backend/devices/manager.py`) -/

/-- `SessionManager.register_device`: sync the durable profile
(update if known, else create with a freshly generated token), then create
or refresh the in-memory session, then log a `connected` event. -/
def SessionManager.register_device (now : Nat) (fresh_token : String)
    (device_info : DeviceInfo) (w : World) : World × DeviceSession :=
  let st := w.storage
  let st :=
    match st.get_device device_info.id with
    | some _ =>
        st.update_device now device_info.id (some device_info.name)
          device_info.imei (some device_info.model) (some device_info.manufacturer)
          (some device_info.android_version) (some device_info.sdk)
    | none =>
        st.create_device now device_info.id device_info.name fresh_token
          device_info.imei (some device_info.model) (some device_info.manufacturer)
          (some device_info.android_version) (some device_info.sdk)
  let (sessions, session) :=
    match dictGet device_info.id w.sessions with
    | some s =>
        let s := { s with last_activity := now, is_online := true,
                          device_name := device_info.name }
        (dictSet device_info.id s w.sessions, s)
    | none =>
        let s : DeviceSession :=
          { device_id := device_info.id, device_name := device_info.name,
            imei := device_info.imei, model := device_info.model,
            manufacturer := device_info.manufacturer,
            android_version := device_info.android_version,
            connected_at := now, last_activity := now }
        (dictSet device_info.id s w.sessions, s)
  let st := st.log_device_event now device_info.id "connected"
    device_info.toJ none
  ({ w with storage := st, sessions := sessions }, session)

/-- `SessionManager.disconnect_device`: mark the session offline
(no-op when the identity has no session); never removes the entry. -/
def SessionManager.disconnect_device (device_id : String) (w : World) : World :=
  match dictGet device_id w.sessions with
  | some s =>
      { w with sessions := dictSet device_id { s with is_online := false } w.sessions }
  | none => w

/-- `SessionManager.get_all_devices`. -/
def SessionManager.get_all_devices (w : World) : List DeviceSession :=
  w.sessions.map (·.2)

/-- `SessionManager.get_online_devices`. -/
def SessionManager.get_online_devices (w : World) : List DeviceSession :=
  (w.sessions.map (·.2)).filter (fun s => s.is_online)

/-- The partial-update dict passed to `update_device_data`: an outer `some`
means the key is present in the dict (its value may itself be `None`, as in
`{"battery_level": system_info.get("battery_level")}`). -/
structure UpdatePayload where
  battery_level : Option (Option Int) := none
  location : Option (List (String × JVal)) := none
  current_camera : Option String := none

/-- `SessionManager.update_device_data`: refresh `last_activity` and merge the
fields present in the dict; a message for an unknown session is dropped. -/
def SessionManager.update_device_data (now : Nat) (device_id : String)
    (data : UpdatePayload) (w : World) : World :=
  match dictGet device_id w.sessions with
  | none => w
  | some session =>
      let session := { session with last_activity := now }
      let session :=
        match data.battery_level with
        | some b => { session with battery_level := b }
        | none => session
      let session :=
        match data.location with
        | some l => { session with location := some l }
        | none => session
      let session :=
        match data.current_camera with
        | some c => { session with current_camera := c }
        | none => session
      { w with sessions := dictSet device_id session w.sessions }

/-! ### WebSocketManager (`backend/websocket/handler.py`) -/

/-- `WebSocketManager.broadcast_to_admins`: attempt delivery to every admin
socket other than `exclude`; collect the sockets whose send raised, then
discard them from the observer set. Returns the successful deliveries. -/
def WebSocketManager.broadcast_to_admins (env : Env) (message : JVal)
    (exclude : Option Nat) (w : World) : World × List (Nat × JVal) :=
  let attempted := w.admin_connections.filter (fun a => !(some a == exclude))
  let delivered := attempted.filter (fun a => env.adminSendOk a)
  let disconnected := attempted.filter (fun a => !(env.adminSendOk a))
  ({ w with admin_connections :=
      w.admin_connections.filter (fun a => !(disconnected.contains a)) },
   delivered.map (fun a => (a, message)))

/-- `WebSocketManager.connect_device`: register the session, store the
connection under the device id, broadcast `device_connected`. Returns the
new state, the session, and the broadcast payloads emitted. -/
def WebSocketManager.connect_device (env : Env) (fresh_token : String)
    (device_info : DeviceInfo) (websocket : Nat) (w : World) :
    World × DeviceSession × List JVal :=
  let (w, session) := SessionManager.register_device env.now fresh_token device_info w
  let conn : DeviceConnection :=
    { device_id := device_info.id, device_name := device_info.name,
      websocket := websocket, last_seen := env.now }
  let w := { w with device_connections := dictSet device_info.id conn w.device_connections }
  let payload := JVal.obj [("type", .s "device_connected"), ("device", .obj session.toJ)]
  let (w, _) := WebSocketManager.broadcast_to_admins env payload none w
  (w, session, [payload])

/-- `WebSocketManager.disconnect_device`: guarded on the connection map; when
present, delete the connection, mark the session offline, broadcast
`device_disconnected`, and log a `disconnected` event. -/
def WebSocketManager.disconnect_device (env : Env) (device_id : String)
    (w : World) : World × List JVal :=
  if (dictGet device_id w.device_connections).isSome then
    let w := { w with device_connections := dictDel device_id w.device_connections }
    let w := SessionManager.disconnect_device device_id w
    let payload := JVal.obj [("type", .s "device_disconnected"),
                             ("device_id", .s device_id)]
    let (w, _) := WebSocketManager.broadcast_to_admins env payload none w
    let w := { w with storage :=
      w.storage.log_device_event env.now device_id "disconnected" [] none }
    (w, [payload])
  else (w, [])

/-- `WebSocketManager.connect_admin`: add the socket to the observer set and
send it the current `device_list` snapshot. -/
def WebSocketManager.connect_admin (websocket : Nat) (w : World) :
    World × List (Nat × JVal) :=
  let admins :=
    if w.admin_connections.contains websocket then w.admin_connections
    else w.admin_connections ++ [websocket]
  let payload := JVal.obj [("type", .s "device_list"),
    ("devices", .arr ((SessionManager.get_all_devices w).map (fun d => .obj d.toJ)))]
  ({ w with admin_connections := admins }, [(websocket, payload)])

/-- `WebSocketManager.disconnect_admin`: `set.discard`. -/
def WebSocketManager.disconnect_admin (websocket : Nat) (w : World) : World :=
  { w with admin_connections := w.admin_connections.filter (fun a => !(a == websocket)) }

/-- `WebSocketManager._handle_camera_frame`: parse, base64-decode, persist,
update the session's camera, broadcast metadata only. Any failure is caught
by the handler's `except` and leaves only log output (modelled as no state
change); a failed database insert commits nothing. Returns the broadcast
payloads emitted. -/
def WebSocketManager.handle_camera_frame (env : Env) (device_id : String)
    (message : RMsg) (w : World) : World × List JVal :=
  match CameraFrame.parse message with
  | none => (w, [])
  | some frame =>
    match env.b64decode frame.data with
    | none => (w, [])
    | some frame_bytes =>
      if env.saveFrameOk then
        let st := w.storage.save_camera_frame env.now device_id frame.camera
          frame_bytes frame.width frame.height frame.timestamp
        let w := { w with storage := st }
        let w := SessionManager.update_device_data env.now device_id
          { current_camera := some frame.camera } w
        let payload := JVal.obj [("type", .s "camera_frame"),
          ("device_id", .s device_id), ("camera", .s frame.camera),
          ("timestamp", .i frame.timestamp), ("width", .i frame.width),
          ("height", .i frame.height)]
        let (w, _) := WebSocketManager.broadcast_to_admins env payload none w
        (w, [payload])
      else (w, [])

/-- `WebSocketManager._handle_location_update`: parse, persist (no range
validation anywhere on the path), update the session's location, broadcast the
full location payload. Failures are caught by the handler's `except`. -/
def WebSocketManager.handle_location_update (env : Env) (device_id : String)
    (message : RMsg) (w : World) : World × List JVal :=
  match LocationUpdate.parse message with
  | none => (w, [])
  | some location =>
    if env.saveLocOk then
      let st := w.storage.save_location env.now device_id location.lat
        location.lon location.accuracy location.timestamp
      let w := { w with storage := st }
      let w := SessionManager.update_device_data env.now device_id
        { location := some location.toJ } w
      let payload := JVal.obj [("type", .s "location_update"),
        ("device_id", .s device_id), ("location", .obj location.toJ)]
      let (w, _) := WebSocketManager.broadcast_to_admins env payload none w
      (w, [payload])
    else (w, [])

/-- `WebSocketManager._handle_system_info`: take `message.get("data", {})`,
update the session's battery level, log a `system_info` event, broadcast
`device_update`. A non-dict `data` value makes the handler raise into its
`except` (no state change); the event insert happens after the session
update and before the broadcast, so when it raises (`logEventOk = false`)
the handler's `except` leaves the session updated, nothing persisted and no
broadcast. -/
def WebSocketManager.handle_system_info (env : Env) (device_id : String)
    (message : RMsg) (w : World) : World × List JVal :=
  let system_info : Option (List (String × JVal)) :=
    match jGet message "data" with
    | none => some []
    | some (JVal.obj fields) => some fields
    | some _ => none
  match system_info with
  | none => (w, [])
  | some system_info =>
    let w := SessionManager.update_device_data env.now device_id
      { battery_level := some (jInt? (jGet system_info "battery_level")) } w
    if env.logEventOk then
      let w := { w with storage :=
        w.storage.log_device_event env.now device_id "system_info" system_info none }
      let payload := JVal.obj [("type", .s "device_update"),
        ("device_id", .s device_id), ("data", .obj system_info)]
      let (w, _) := WebSocketManager.broadcast_to_admins env payload none w
      (w, [payload])
    else (w, [])

/-- `WebSocketManager.handle_device_message`: dispatch on the declared
`type`. `ping` refreshes the connection's `last_seen` only; unknown types are
logged and dropped. -/
def WebSocketManager.handle_device_message (env : Env) (device_id : String)
    (message : RMsg) (w : World) : World × List JVal :=
  match jStr? (jGet message "type") with
  | some "camera_frame" => WebSocketManager.handle_camera_frame env device_id message w
  | some "location_update" => WebSocketManager.handle_location_update env device_id message w
  | some "system_info" => WebSocketManager.handle_system_info env device_id message w
  | some "ping" =>
      match dictGet device_id w.device_connections with
      | some conn =>
          ({ w with device_connections :=
              dictSet device_id { conn with last_seen := env.now } w.device_connections }, [])
      | none => (w, [])
  | _ => (w, [])

/-- `WebSocketManager.send_command`: `False` without side effects when the
identity has no live connection; on a live connection deliver one serialized
command message, log a `command_sent` event, return `True`; a raising send is
caught and yields `False`. -/
def WebSocketManager.send_command (env : Env) (device_id : String)
    (command : DeviceCommand) (w : World) : World × Bool × List (Nat × JVal) :=
  match dictGet device_id w.device_connections with
  | none => (w, false, [])
  | some conn =>
    if env.deviceSendOk conn.websocket then
      let payload := JVal.obj [("type", .s "command"),
        ("command", .s command.command), ("data", .obj command.data)]
      let st := w.storage.log_device_event env.now device_id "command_sent"
        command.toJ none
      ({ w with storage := st }, true, [(conn.websocket, payload)])
    else (w, false, [])


/-! ### Lemmas about the dict operations -/

/-- Occurrences of a key in an association list. -/
def countKey {α : Type} (k : String) (l : List (String × α)) : Nat :=
  (l.filter (fun p => p.1 == k)).length

/-- The in-place-replacement pass of `dictSet` when the key is present. -/
def mapReplace {α : Type} (k : String) (v : α) (l : List (String × α)) :
    List (String × α) :=
  l.map (fun p => if p.1 == k then (k, v) else p)

theorem dictGet_nil {α : Type} {k : String} :
    dictGet k ([] : List (String × α)) = none := rfl

theorem dictGet_cons {α : Type} {k a : String} {b : α} {t : List (String × α)} :
    dictGet k ((a, b) :: t) = if a = k then some b else dictGet k t := by
  by_cases h : a = k
  · simp [dictGet, List.find?, h]
  · have hb : (a == k) = false := by simpa using h
    simp [dictGet, List.find?, hb, h]

theorem dictGet_eq_none {α : Type} {k : String} {l : List (String × α)} :
    dictGet k l = none ↔ ∀ p ∈ l, ¬(p.1 = k) := by
  simp [dictGet, List.find?_eq_none]

theorem dictSet_cons {α : Type} {k a : String} {b v : α} {t : List (String × α)} :
    dictSet k v ((a, b) :: t) =
      if a = k then (k, v) :: mapReplace k v t
      else (a, b) :: dictSet k v t := by
  by_cases h : a = k
  · have hb : (a == k) = true := by simpa using h
    simp [dictSet, mapReplace, List.any_cons, hb, h]
  · have hb : (a == k) = false := by simpa using h
    by_cases ht : t.any (fun p => p.1 == k)
    · simp [dictSet, mapReplace, List.any_cons, hb, h, ht]
    · simp [dictSet, mapReplace, List.any_cons, hb, h, ht]

theorem dictSet_absent {α : Type} {k : String} {l : List (String × α)} (v : α)
    (h : dictGet k l = none) : dictSet k v l = l ++ [(k, v)] := by
  induction l with
  | nil => rfl
  | cons p t ih =>
      obtain ⟨a, b⟩ := p
      rw [dictGet_cons] at h
      by_cases ha : a = k
      · rw [if_pos ha] at h; exact absurd h (by simp)
      · rw [if_neg ha] at h
        rw [dictSet_cons, if_neg ha, ih h]
        simp

theorem mapReplace_cons {α : Type} {k a : String} {b v : α} {t : List (String × α)} :
    mapReplace k v ((a, b) :: t) =
      (if a = k then (k, v) else (a, b)) :: mapReplace k v t := by
  by_cases h : a = k
  · have hb : (a == k) = true := by simpa using h
    simp [mapReplace, hb, h]
  · have hb : (a == k) = false := by simpa using h
    simp [mapReplace, hb, h]

theorem dictGet_mapReplace_ne {α : Type} {k k' : String} (v : α)
    (l : List (String × α)) (h : ¬(k' = k)) :
    dictGet k' (mapReplace k v l) = dictGet k' l := by
  have hk : ¬(k = k') := fun e => h e.symm
  induction l with
  | nil => rfl
  | cons p t ih =>
      obtain ⟨a, b⟩ := p
      rw [mapReplace_cons]
      by_cases ha : a = k
      · have hak : ¬(a = k') := fun e => hk (ha ▸ e)
        rw [if_pos ha, dictGet_cons, if_neg hk, dictGet_cons, if_neg hak]
        exact ih
      · rw [if_neg ha, dictGet_cons, dictGet_cons]
        by_cases hak : a = k'
        · rw [if_pos hak, if_pos hak]
        · rw [if_neg hak, if_neg hak]
          exact ih

theorem dictGet_mapReplace_self {α : Type} {k : String} (v : α)
    (l : List (String × α)) (h : (dictGet k l).isSome) :
    dictGet k (mapReplace k v l) = some v := by
  induction l with
  | nil => simp [dictGet] at h
  | cons p t ih =>
      obtain ⟨a, b⟩ := p
      rw [mapReplace_cons]
      by_cases ha : a = k
      · rw [if_pos ha, dictGet_cons, if_pos rfl]
      · rw [if_neg ha, dictGet_cons, if_neg ha]
        rw [dictGet_cons, if_neg ha] at h
        exact ih h

theorem countKey_cons {α : Type} {k a : String} {b : α} {t : List (String × α)} :
    countKey k ((a, b) :: t) = (if a = k then 1 else 0) + countKey k t := by
  by_cases h : a = k
  · have hb : (a == k) = true := by simpa using h
    simp [countKey, List.filter_cons, hb, h, Nat.add_comm]
  · have hb : (a == k) = false := by simpa using h
    simp [countKey, List.filter_cons, hb, h]

theorem countKey_mapReplace {α : Type} (k k' : String) (v : α)
    (l : List (String × α)) :
    countKey k' (mapReplace k v l) = countKey k' l := by
  induction l with
  | nil => rfl
  | cons p t ih =>
      obtain ⟨a, b⟩ := p
      rw [mapReplace_cons]
      by_cases ha : a = k
      · rw [if_pos ha, countKey_cons, countKey_cons, ih, ha]
      · rw [if_neg ha, countKey_cons, countKey_cons, ih]

theorem dictGet_dictSet_self {α : Type} (k : String) (v : α)
    (l : List (String × α)) : dictGet k (dictSet k v l) = some v := by
  induction l with
  | nil => simp [dictSet, dictGet, List.find?]
  | cons p t ih =>
      obtain ⟨a, b⟩ := p
      rw [dictSet_cons]
      by_cases h : a = k
      · rw [if_pos h, dictGet_cons, if_pos rfl]
      · rw [if_neg h, dictGet_cons, if_neg h]
        exact ih

theorem dictGet_dictSet_ne {α : Type} {k k' : String} (v : α)
    (l : List (String × α)) (h : ¬(k' = k)) :
    dictGet k' (dictSet k v l) = dictGet k' l := by
  have hk : ¬(k = k') := fun e => h e.symm
  induction l with
  | nil => simp [dictSet, dictGet_cons, hk]
  | cons p t ih =>
      obtain ⟨a, b⟩ := p
      rw [dictSet_cons]
      by_cases ha : a = k
      · have hak : ¬(a = k') := fun e => hk (ha ▸ e)
        rw [if_pos ha, dictGet_cons, if_neg hk, dictGet_cons, if_neg hak]
        exact dictGet_mapReplace_ne v t h
      · rw [if_neg ha, dictGet_cons, dictGet_cons]
        by_cases hak : a = k'
        · rw [if_pos hak, if_pos hak]
        · rw [if_neg hak, if_neg hak]
          exact ih

theorem dictGet_dictSet_isSome {α : Type} {k' : String} (k : String) (v : α)
    (l : List (String × α)) (h : (dictGet k' l).isSome) :
    (dictGet k' (dictSet k v l)).isSome := by
  by_cases hk : k' = k
  · subst hk
    rw [dictGet_dictSet_self]
    rfl
  · rw [dictGet_dictSet_ne v l hk]
    exact h

theorem dictGet_dictDel_self {α : Type} (k : String) (l : List (String × α)) :
    dictGet k (dictDel k l) = none := by
  rw [dictGet_eq_none]
  intro p hp
  simp only [dictDel, List.mem_filter] at hp
  simpa using hp.2

theorem countKey_eq_zero {α : Type} {k : String} {l : List (String × α)}
    (h : dictGet k l = none) : countKey k l = 0 := by
  have h' := dictGet_eq_none.mp h
  simp only [countKey, List.length_eq_zero, List.filter_eq_nil_iff]
  intro p hp
  simpa using h' p hp

theorem countKey_append {α : Type} (k : String) (l₁ l₂ : List (String × α)) :
    countKey k (l₁ ++ l₂) = countKey k l₁ + countKey k l₂ := by
  simp [countKey, List.filter_append]

theorem countKey_dictSet_present {α : Type} {k : String} {l : List (String × α)} (v : α)
    (h : (dictGet k l).isSome) : countKey k (dictSet k v l) = countKey k l := by
  induction l with
  | nil => simp [dictGet] at h
  | cons p t ih =>
      obtain ⟨a, b⟩ := p
      rw [dictSet_cons]
      by_cases ha : a = k
      · rw [if_pos ha, countKey_cons, countKey_cons, if_pos rfl, if_pos ha,
          countKey_mapReplace]
      · rw [if_neg ha, countKey_cons, countKey_cons]
        rw [dictGet_cons, if_neg ha] at h
        rw [ih h]

/-! ### Concrete fixtures used by counterexamples and witnesses -/

/-- An environment where every external call succeeds; `"aGk="` is the only
base64 text the modelled decoder accepts (it is `b"hi"`). -/
def envOK : Env :=
  { now := 7, b64decode := fun s => if s == "aGk=" then some [104, 105] else none,
    adminSendOk := fun _ => true, deviceSendOk := fun _ => true }

/-- Environment in which admin socket 2 raises on send. -/
def envAdm2Broken : Env := { envOK with adminSendOk := fun a => a != 2 }

/-- Environment in which the camera-frame database insert raises. -/
def envSaveFail : Env := { envOK with saveFrameOk := false }

/-- Environment in which base64 decoding always raises. -/
def envB64Fail : Env := { envOK with b64decode := fun _ => none }

/-- Environment in which the location database insert raises. -/
def envLocFail : Env := { envOK with saveLocOk := false }

/-- Environment in which the event-log database insert raises. -/
def envLogFail : Env := { envOK with logEventOk := false }

/-- A well-formed `system_info` message with a battery level. -/
def sysMsg : RMsg :=
  [("type", .s "system_info"), ("data", .obj [("battery_level", .i 80)])]

def connD : DeviceConnection :=
  { device_id := "d", device_name := "Dev", websocket := 5, last_seen := 1 }

def sessD : DeviceSession :=
  { device_id := "d", device_name := "Dev", connected_at := 1, last_activity := 5 }

/-- A world with one connected device `"d"` and three admin observers. -/
def wBase : World :=
  { sessions := [("d", sessD)], device_connections := [("d", connD)],
    admin_connections := [1, 2, 3] }

/-- The empty start-up world. -/
def w0 : World := {}

/-- A `location_update` whose latitude 90.0001 is out of range. -/
def locMsg90 : RMsg :=
  [("type", .s "location_update"), ("lat", .q (900001/10000)),
   ("lon", .q 0), ("timestamp", .i 1)]

/-- A well-formed `camera_frame` message (320×240, timestamp 5). -/
def camMsg : RMsg :=
  [("type", .s "camera_frame"), ("camera", .s "front"), ("data", .s "aGk="),
   ("width", .i 320), ("height", .i 240), ("timestamp", .i 5)]

/-- A stored frame whose device timestamp 10 is later than `camMsg`'s. -/
def oldFrame : CameraFrameRow :=
  { id := 0, device_id := "d", camera := "front", frame_data := [1],
    width := 640, height := 480, timestamp := 10, created_at := 0 }

/-- `wBase` with `oldFrame` already persisted. -/
def wOld : World := { wBase with storage := { frames := [oldFrame], nextId := 1 } }

def cmdW : DeviceCommand :=
  { command := "show_camera", data := [("camera", .s "front")] }

def infoD : DeviceInfo :=
  { id := "d", name := "Samsung Galaxy S21", imei := some "123456789",
    model := "Galaxy S21", manufacturer := "Samsung", android_version := "12",
    sdk := 31 }

/-- Same identity as `infoD`, different display name. -/
def infoD2 : DeviceInfo := { infoD with name := "Renamed Device" }

/-- A broadcast payload used by witnesses. -/
def evtW : JVal := .obj [("type", .s "test_event")]

/-- `envOK` at a later time, for second calls. -/
def envLater : Env := { envOK with now := 20 }

/-- A liveness ping message. -/
def pingMsg : RMsg := [("type", .s "ping")]

/-- A pre-registered durable profile for identity `"d"`. -/
def deviceRowD : Device :=
  { id := "d", name := "Old Name", token := "tok-original", created_at := 0,
    last_seen := 0 }

/-- A world whose Record Store already knows identity `"d"`. -/
def wDev : World := { storage := { devices := [deviceRowD] } }

/-! ### Frame lemmas: which state components each operation leaves alone -/

theorem SessionManager.disconnect_device_frame (device_id : String) (w : World) :
    (SessionManager.disconnect_device device_id w).storage = w.storage ∧
    (SessionManager.disconnect_device device_id w).device_connections = w.device_connections ∧
    (SessionManager.disconnect_device device_id w).admin_connections = w.admin_connections := by
  unfold SessionManager.disconnect_device
  cases dictGet device_id w.sessions <;> exact ⟨rfl, rfl, rfl⟩

theorem broadcast_frame (env : Env) (p : JVal) (ex : Option Nat) (w : World) :
    (WebSocketManager.broadcast_to_admins env p ex w).1.storage = w.storage ∧
    (WebSocketManager.broadcast_to_admins env p ex w).1.sessions = w.sessions ∧
    (WebSocketManager.broadcast_to_admins env p ex w).1.device_connections = w.device_connections :=
  ⟨rfl, rfl, rfl⟩

theorem ws_disconnect_conns (env : Env) (device_id : String) (w : World)
    (h : (dictGet device_id w.device_connections).isSome = true) :
    (WebSocketManager.disconnect_device env device_id w).1.device_connections =
      dictDel device_id w.device_connections := by
  simp only [WebSocketManager.disconnect_device, h, if_pos]
  have := (SessionManager.disconnect_device_frame device_id
    { w with device_connections := dictDel device_id w.device_connections }).2.1
  simp only [WebSocketManager.broadcast_to_admins]
  simpa using this

theorem ws_disconnect_noop (env : Env) (device_id : String) (w : World)
    (h : ¬((dictGet device_id w.device_connections).isSome = true)) :
    WebSocketManager.disconnect_device env device_id w = (w, []) := by
  simp only [WebSocketManager.disconnect_device, h, Bool.false_eq_true, if_false]

/-! ### Claim theorems -/

/-- C5: for every identity and every starting state, a second consecutive
`disconnect_device` is a complete no-op: it returns the state of the first
call unchanged (same session map, connection map, admin set, and Record
Store, hence no second `disconnected` Event) and emits no broadcast, so the
end state of calling it twice equals that of calling it once. -/
theorem disconnect_device_twice_is_noop (env₁ env₂ : Env) (device_id : String)
    (w : World) :
    WebSocketManager.disconnect_device env₂ device_id
        (WebSocketManager.disconnect_device env₁ device_id w).1 =
      ((WebSocketManager.disconnect_device env₁ device_id w).1, []) := by
  by_cases h : (dictGet device_id w.device_connections).isSome = true
  · apply ws_disconnect_noop
    rw [ws_disconnect_conns env₁ device_id w h, dictGet_dictDel_self]
    simp
  · rw [ws_disconnect_noop env₁ device_id w h]
    exact ws_disconnect_noop env₂ device_id w h

/-- C4: with admin observers of which exactly one fails on delivery,
`broadcast_to_admins` delivers the event to the remaining N−1 observers,
removes only the failed connection from the observer set (it is absent from
subsequent broadcasts), and never delivers to the connection passed as
`exclude`; the embedded function is total, so one failing recipient cannot
abort delivery to the others. -/
theorem broadcast_to_admins_one_bad (env : Env) (payload : JVal) (w : World) (f : Nat)
    (hnd : w.admin_connections.Nodup) (hf : f ∈ w.admin_connections)
    (hiff : ∀ a ∈ w.admin_connections, (env.adminSendOk a = false ↔ a = f)) :
    (WebSocketManager.broadcast_to_admins env payload none w).2 =
      (w.admin_connections.erase f).map (fun a => (a, payload)) ∧
    (WebSocketManager.broadcast_to_admins env payload none w).2.length =
      w.admin_connections.length - 1 ∧
    (WebSocketManager.broadcast_to_admins env payload none w).1.admin_connections =
      w.admin_connections.erase f ∧
    f ∉ (WebSocketManager.broadcast_to_admins env payload none w).1.admin_connections ∧
    (∀ ex : Nat, ∀ p ∈ (WebSocketManager.broadcast_to_admins env payload (some ex) w).2,
      p.1 ≠ ex) := by
  have hatt : w.admin_connections.filter (fun a => !(some a == (none : Option Nat))) =
      w.admin_connections := by
    rw [List.filter_congr (fun a _ => by rfl : ∀ a ∈ w.admin_connections,
      (!(some a == (none : Option Nat))) = (fun _ => true) a)]
    exact List.filter_true _
  have hok : ∀ a ∈ w.admin_connections, env.adminSendOk a = (a != f) := by
    intro a ha
    by_cases haf : a = f
    · subst haf
      rw [(hiff a ha).mpr rfl]
      simp
    · cases hs : env.adminSendOk a with
      | false => exact absurd ((hiff a ha).mp hs) haf
      | true => simp [haf]
  have hdel : w.admin_connections.filter (fun a => env.adminSendOk a) =
      w.admin_connections.erase f := by
    rw [List.filter_congr hok, hnd.erase_eq_filter f]
  have hdisc : w.admin_connections.filter (fun a => !(env.adminSendOk a)) =
      w.admin_connections.filter (fun a => a == f) := by
    refine List.filter_congr fun a ha => ?_
    rw [hok a ha]
    simp [bne]
  have hprune : w.admin_connections.filter
      (fun a => !((w.admin_connections.filter (fun b => !(env.adminSendOk b))).contains a)) =
      w.admin_connections.erase f := by
    rw [hnd.erase_eq_filter f]
    refine List.filter_congr fun a ha => ?_
    rw [hdisc]
    by_cases haf : a = f
    · have hmem : a ∈ w.admin_connections.filter (fun b => b == f) := by
        rw [List.mem_filter]
        exact ⟨ha, by simp [haf]⟩
      simp only [haf] at hmem ⊢
      simp [List.contains, List.elem_iff.mpr hmem]
      exact hf
    · have hmem : a ∉ w.admin_connections.filter (fun b => b == f) := by
        rw [List.mem_filter]
        rintro ⟨-, h⟩
        exact haf (by simpa using h)
      simp [List.contains, haf, fun h => hmem (List.elem_iff.mp h)]
  refine ⟨?_, ?_, ?_, ?_, ?_⟩
  · simp only [WebSocketManager.broadcast_to_admins]
    rw [hatt, hdel]
  · simp only [WebSocketManager.broadcast_to_admins]
    rw [hatt, hdel, List.length_map]
    have := List.length_erase_add_one hf
    omega
  · simp only [WebSocketManager.broadcast_to_admins]
    rw [hatt]
    exact hprune
  · simp only [WebSocketManager.broadcast_to_admins]
    rw [hatt, hprune]
    intro hmem
    exact absurd (hnd.mem_erase_iff.mp hmem).1 (by simp)
  · intro ex p hp
    simp only [WebSocketManager.broadcast_to_admins, List.mem_map] at hp
    obtain ⟨a, ha, rfl⟩ := hp
    rw [List.mem_filter, List.mem_filter] at ha
    intro hax
    have h2 : a ≠ ex := by simpa using ha.1.2
    exact h2 hax

theorem broadcast_to_admins_one_bad_witness :
    (WebSocketManager.broadcast_to_admins envAdm2Broken evtW none wBase).2 =
      [(1, evtW), (3, evtW)] ∧
    (WebSocketManager.broadcast_to_admins envAdm2Broken evtW none wBase).1.admin_connections =
      [1, 3] := by
  obtain ⟨h1, h2, h3, h4, h5⟩ :=
    broadcast_to_admins_one_bad envAdm2Broken evtW wBase 2 (by decide) (by decide)
      (by decide)
  refine ⟨h1.trans ?_, h3.trans ?_⟩ <;> rfl

theorem dictGet_append_single {α : Type} {k : String} {l : List (String × α)}
    (v : α) (h : dictGet k l = none) : dictGet k (l ++ [(k, v)]) = some v := by
  induction l with
  | nil => simp [dictGet_cons]
  | cons p t ih =>
      obtain ⟨a, b⟩ := p
      rw [dictGet_cons] at h
      by_cases ha : a = k
      · rw [if_pos ha] at h
        exact absurd h (by simp)
      · rw [if_neg ha] at h
        rw [List.cons_append, dictGet_cons, if_neg ha]
        exact ih h

theorem connect_sessions (env : Env) (tok : String) (info : DeviceInfo)
    (ws : Nat) (w : World) :
    (WebSocketManager.connect_device env tok info ws w).1.sessions =
      (SessionManager.register_device env.now tok info w).1.sessions := rfl

theorem register_sessions_absent (now : Nat) (tok : String) (info : DeviceInfo)
    (w : World) (h : dictGet info.id w.sessions = none) :
    (SessionManager.register_device now tok info w).1.sessions =
      w.sessions ++ [(info.id,
        { device_id := info.id, device_name := info.name, imei := info.imei,
          model := info.model, manufacturer := info.manufacturer,
          android_version := info.android_version, connected_at := now,
          last_activity := now })] := by
  simp only [SessionManager.register_device, h]
  rw [dictSet_absent _ h]

theorem register_sessions_present (now : Nat) (tok : String) (info : DeviceInfo)
    (w : World) (s : DeviceSession) (h : dictGet info.id w.sessions = some s) :
    (SessionManager.register_device now tok info w).1.sessions =
      dictSet info.id
        { s with last_activity := now, is_online := true, device_name := info.name }
        w.sessions := by
  simp only [SessionManager.register_device, h]

/-- C6: connecting the same identity twice leaves exactly one Session for it
in the registry — no duplicate entry — and that Session keeps `connected_at`
from the first call while `last_activity`, the online flag and the display
name are refreshed by the second call. -/
theorem connect_device_twice (env₁ env₂ : Env) (tok₁ tok₂ : String)
    (ws₁ ws₂ : Nat) (i₁ i₂ : DeviceInfo) (w : World) (hid : i₂.id = i₁.id)
    (hfresh : dictGet i₁.id w.sessions = none) :
    countKey i₁.id
      (WebSocketManager.connect_device env₂ tok₂ i₂ ws₂
        (WebSocketManager.connect_device env₁ tok₁ i₁ ws₁ w).1).1.sessions = 1 ∧
    ∃ s, dictGet i₁.id
        (WebSocketManager.connect_device env₂ tok₂ i₂ ws₂
          (WebSocketManager.connect_device env₁ tok₁ i₁ ws₁ w).1).1.sessions = some s ∧
      s.connected_at = env₁.now ∧ s.last_activity = env₂.now ∧
      s.is_online = true ∧ s.device_name = i₂.name := by
  have h₁ : (WebSocketManager.connect_device env₁ tok₁ i₁ ws₁ w).1.sessions =
      w.sessions ++ [(i₁.id,
        { device_id := i₁.id, device_name := i₁.name, imei := i₁.imei,
          model := i₁.model, manufacturer := i₁.manufacturer,
          android_version := i₁.android_version, connected_at := env₁.now,
          last_activity := env₁.now })] :=
    (connect_sessions env₁ tok₁ i₁ ws₁ w).trans
      (register_sessions_absent env₁.now tok₁ i₁ w hfresh)
  have hget₁ : dictGet i₂.id
      (WebSocketManager.connect_device env₁ tok₁ i₁ ws₁ w).1.sessions =
      some { device_id := i₁.id, device_name := i₁.name, imei := i₁.imei,
             model := i₁.model, manufacturer := i₁.manufacturer,
             android_version := i₁.android_version, connected_at := env₁.now,
             last_activity := env₁.now } := by
    rw [hid, h₁]
    exact dictGet_append_single _ hfresh
  have h₂ : (WebSocketManager.connect_device env₂ tok₂ i₂ ws₂
      (WebSocketManager.connect_device env₁ tok₁ i₁ ws₁ w).1).1.sessions =
      dictSet i₂.id
        { device_id := i₁.id, device_name := i₂.name, imei := i₁.imei,
          model := i₁.model, manufacturer := i₁.manufacturer,
          android_version := i₁.android_version, connected_at := env₁.now,
          last_activity := env₂.now, is_online := true }
        (WebSocketManager.connect_device env₁ tok₁ i₁ ws₁ w).1.sessions :=
    (connect_sessions env₂ tok₂ i₂ ws₂ _).trans
      (register_sessions_present env₂.now tok₂ i₂ _ _ hget₁)
  constructor
  · rw [h₂, hid, countKey_dictSet_present _ (by rw [← hid, hget₁]; rfl), h₁,
      countKey_append, countKey_eq_zero hfresh, countKey_cons]
    simp [countKey]
  · have hs2 : dictGet i₁.id
        (WebSocketManager.connect_device env₂ tok₂ i₂ ws₂
          (WebSocketManager.connect_device env₁ tok₁ i₁ ws₁ w).1).1.sessions =
        some { device_id := i₁.id, device_name := i₂.name, imei := i₁.imei,
               model := i₁.model, manufacturer := i₁.manufacturer,
               android_version := i₁.android_version, connected_at := env₁.now,
               last_activity := env₂.now, is_online := true } := by
      rw [h₂, hid]
      exact dictGet_dictSet_self _ _ _
    exact ⟨_, hs2, rfl, rfl, rfl, rfl⟩

/-- Witness for C6 at a concrete input. -/
theorem connect_device_twice_witness :
    countKey "d"
      (WebSocketManager.connect_device envLater "t2" infoD2 12
        (WebSocketManager.connect_device envOK "t1" infoD 11 w0).1).1.sessions = 1 ∧
    ∃ s, dictGet "d"
        (WebSocketManager.connect_device envLater "t2" infoD2 12
          (WebSocketManager.connect_device envOK "t1" infoD 11 w0).1).1.sessions = some s ∧
      s.connected_at = envOK.now ∧ s.last_activity = envLater.now ∧
      s.is_online = true ∧ s.device_name = infoD2.name :=
  connect_device_twice envOK envLater "t1" "t2" 11 12 infoD infoD2 w0 rfl rfl

theorem SessionManager.update_device_data_frame (now : Nat) (device_id : String)
    (data : UpdatePayload) (w : World) :
    (SessionManager.update_device_data now device_id data w).storage = w.storage ∧
    (SessionManager.update_device_data now device_id data w).device_connections =
      w.device_connections ∧
    (SessionManager.update_device_data now device_id data w).admin_connections =
      w.admin_connections := by
  unfold SessionManager.update_device_data
  cases dictGet device_id w.sessions <;> exact ⟨rfl, rfl, rfl⟩

-- C9 counterexample scratch
/-- C9 counterexample: at a concrete state, handling a `ping` at time 7
leaves the DeviceSession's `last_activity` at 5 — the claim says the
session's last-activity timestamp is updated, but the code updates only the
live connection's `last_seen`. -/
theorem ping_leaves_session_last_activity :
    (dictGet "d" (WebSocketManager.handle_device_message envOK "d"
        pingMsg wBase).1.sessions).map (fun s => s.last_activity) = some 5 ∧
    (5 : Nat) ≠ envOK.now ∧
    (dictGet "d" (WebSocketManager.handle_device_message envOK "d"
        pingMsg wBase).1.device_connections).map (fun c => c.last_seen) =
      some envOK.now :=
  ⟨rfl, by decide, rfl⟩

theorem dispatch_camera (env : Env) (device_id : String) (m : RMsg) (w : World)
    (htype : jGet m "type" = some (.s "camera_frame")) :
    WebSocketManager.handle_device_message env device_id m w =
      WebSocketManager.handle_camera_frame env device_id m w := by
  simp only [WebSocketManager.handle_device_message]
  rw [htype]
  rfl

theorem dispatch_location (env : Env) (device_id : String) (m : RMsg) (w : World)
    (htype : jGet m "type" = some (.s "location_update")) :
    WebSocketManager.handle_device_message env device_id m w =
      WebSocketManager.handle_location_update env device_id m w := by
  simp only [WebSocketManager.handle_device_message]
  rw [htype]
  rfl

theorem dispatch_ping_present (env : Env) (device_id : String) (m : RMsg)
    (w : World) (conn : DeviceConnection)
    (htype : jGet m "type" = some (.s "ping"))
    (hc : dictGet device_id w.device_connections = some conn) :
    WebSocketManager.handle_device_message env device_id m w =
      ({ w with device_connections := dictSet device_id { conn with last_seen := env.now } w.device_connections }, []) := by
  simp only [WebSocketManager.handle_device_message]
  rw [htype, hc]
  rfl

theorem dispatch_ping_absent (env : Env) (device_id : String) (m : RMsg)
    (w : World) (htype : jGet m "type" = some (.s "ping"))
    (hc : dictGet device_id w.device_connections = none) :
    WebSocketManager.handle_device_message env device_id m w = (w, []) := by
  simp only [WebSocketManager.handle_device_message]
  rw [htype, hc]
  rfl

/-- C9 (amended): handling a `ping` updates the live DeviceConnection's
`last_seen` to the current time (no-op when the device has no live
connection) and does nothing else: session map, Record Store and admin set
are unchanged and nothing is broadcast. -/
theorem ping_updates_connection_only (env : Env) (device_id : String) (m : RMsg)
    (w : World) (htype : jGet m "type" = some (.s "ping")) :
    (WebSocketManager.handle_device_message env device_id m w).1.sessions = w.sessions ∧
    (WebSocketManager.handle_device_message env device_id m w).1.storage = w.storage ∧
    (WebSocketManager.handle_device_message env device_id m w).1.admin_connections =
      w.admin_connections ∧
    (WebSocketManager.handle_device_message env device_id m w).2 = [] ∧
    (∀ c, dictGet device_id w.device_connections = some c →
      (WebSocketManager.handle_device_message env device_id m w).1.device_connections =
        dictSet device_id { c with last_seen := env.now } w.device_connections) ∧
    (dictGet device_id w.device_connections = none →
      (WebSocketManager.handle_device_message env device_id m w).1.device_connections =
        w.device_connections) := by
  rcases hc : dictGet device_id w.device_connections with _ | c
  · have hrun := dispatch_ping_absent env device_id m w htype hc
    exact ⟨by rw [hrun], by rw [hrun], by rw [hrun], by rw [hrun],
      fun c h => Option.noConfusion h, fun _ => by rw [hrun]⟩
  · have hrun := dispatch_ping_present env device_id m w c htype hc
    refine ⟨by rw [hrun], by rw [hrun], by rw [hrun], by rw [hrun],
      fun c' h => ?_, fun h => Option.noConfusion h⟩
    cases h
    rw [hrun]

/-- C1 counterexample: a `location_update` with latitude 90.0001 (out of
range) is persisted (one location record appears) and broadcast (one admin
payload emitted) — the claim says it is rejected with no persistence and no
broadcast. -/
theorem location_out_of_range_accepted :
    (900001 / 10000 : ℚ) > 90 ∧
    (WebSocketManager.handle_device_message envOK "d" locMsg90 w0).1.storage.locations.length = 1 ∧
    (WebSocketManager.handle_device_message envOK "d" locMsg90 w0).2.length = 1 :=
  ⟨by norm_num, rfl, rfl⟩

/-- C1 (amended): the WebSocket location handler performs no coordinate
range validation: every parsed `location_update` — out-of-range values such
as latitude 90.0001 included, and boundary values latitude 90 / longitude
−180 included — is persisted as exactly one location record and broadcast to
admins exactly once. -/
theorem handle_location_update_no_validation (env : Env) (device_id : String)
    (m : RMsg) (loc : LocationUpdate) (w : World)
    (htype : jGet m "type" = some (.s "location_update"))
    (hp : LocationUpdate.parse m = some loc) (hok : env.saveLocOk = true) :
    (WebSocketManager.handle_device_message env device_id m w).1.storage.locations =
      w.storage.locations ++
        [{ id := w.storage.nextId, device_id := device_id, lat := loc.lat,
           lon := loc.lon, accuracy := loc.accuracy, timestamp := loc.timestamp,
           created_at := env.now }] ∧
    (WebSocketManager.handle_device_message env device_id m w).2 =
      [JVal.obj [("type", .s "location_update"), ("device_id", .s device_id),
        ("location", .obj loc.toJ)]] := by
  rw [dispatch_location env device_id m w htype]
  simp only [WebSocketManager.handle_location_update, hp, hok, if_true]
  constructor
  · rw [(broadcast_frame _ _ _ _).1, (SessionManager.update_device_data_frame _ _ _ _).1]
    rfl
  · trivial

theorem location_no_validation_witness :
    (WebSocketManager.handle_device_message envOK "d" locMsg90 w0).1.storage.locations =
      w0.storage.locations ++
        [{ id := w0.storage.nextId, device_id := "d", lat := (900001/10000 : ℚ),
           lon := (0 : ℚ), accuracy := none, timestamp := (1 : Int),
           created_at := envOK.now }] ∧
    (WebSocketManager.handle_device_message envOK "d" locMsg90 w0).2 =
      [JVal.obj [("type", .s "location_update"), ("device_id", .s "d"),
        ("location", .obj (LocationUpdate.toJ
          { lat := 900001/10000, lon := 0, accuracy := none, timestamp := 1 }))]] :=
  handle_location_update_no_validation envOK "d" locMsg90
    { lat := 900001/10000, lon := 0, accuracy := none, timestamp := 1 } w0
    rfl rfl rfl

theorem dispatch_system (env : Env) (device_id : String) (m : RMsg) (w : World)
    (htype : jGet m "type" = some (.s "system_info")) :
    WebSocketManager.handle_device_message env device_id m w =
      WebSocketManager.handle_system_info env device_id m w := by
  simp only [WebSocketManager.handle_device_message]
  rw [htype]
  rfl

theorem update_device_data_sessions_other (now : Nat) (id' : String)
    (data : UpdatePayload) (w : World) (id : String) (h : ¬(id = id')) :
    dictGet id (SessionManager.update_device_data now id' data w).sessions =
      dictGet id w.sessions := by
  unfold SessionManager.update_device_data
  rcases hs : dictGet id' w.sessions with _ | s
  · rfl
  · exact dictGet_dictSet_ne _ _ h

/-- C8: a persistence-step failure while handling an inbound device message —
a pydantic parse error, a base64 decode error, or a failing database insert
in any of the three persisting handlers (`camera_frame` via
`save_camera_frame`, `location_update` via `save_location`, `system_info`
via `log_device_event`) — is contained to that message: the handler returns
normally (nothing raises out of the dispatch), nothing is persisted, that
message's admin broadcast is suppressed, and the connection maps and every
other identity's session are untouched, so the device's connection and all
other devices' connections and broadcasts are unaffected. For `camera_frame`
and `location_update` the state is exactly unchanged; for `system_info` the
session update the source performs before the insert persists, and nothing
else changes. -/
theorem persistence_failures_contained (env : Env) (device_id : String)
    (m : RMsg) (w : World) :
    (jGet m "type" = some (.s "camera_frame") →
      (CameraFrame.parse m = none →
        WebSocketManager.handle_device_message env device_id m w = (w, [])) ∧
      (∀ frame, CameraFrame.parse m = some frame → env.b64decode frame.data = none →
        WebSocketManager.handle_device_message env device_id m w = (w, [])) ∧
      (env.saveFrameOk = false →
        WebSocketManager.handle_device_message env device_id m w = (w, []))) ∧
    (jGet m "type" = some (.s "location_update") →
      (LocationUpdate.parse m = none →
        WebSocketManager.handle_device_message env device_id m w = (w, [])) ∧
      (env.saveLocOk = false →
        WebSocketManager.handle_device_message env device_id m w = (w, []))) ∧
    (jGet m "type" = some (.s "system_info") → env.logEventOk = false →
      (WebSocketManager.handle_device_message env device_id m w).2 = [] ∧
      (WebSocketManager.handle_device_message env device_id m w).1.storage = w.storage ∧
      (WebSocketManager.handle_device_message env device_id m w).1.device_connections =
        w.device_connections ∧
      (WebSocketManager.handle_device_message env device_id m w).1.admin_connections =
        w.admin_connections ∧
      (∀ id, ¬(id = device_id) →
        dictGet id (WebSocketManager.handle_device_message env device_id m w).1.sessions =
          dictGet id w.sessions)) := by
  refine ⟨fun htype => ?_, fun htype => ?_, fun htype hlog => ?_⟩
  · rw [dispatch_camera env device_id m w htype]
    refine ⟨fun hp => ?_, fun frame hp hdec => ?_, fun hsave => ?_⟩
    · simp [WebSocketManager.handle_camera_frame, hp]
    · simp [WebSocketManager.handle_camera_frame, hp, hdec]
    · simp only [WebSocketManager.handle_camera_frame]
      split
      · rfl
      · split
        · rfl
        · simp [hsave]
  · rw [dispatch_location env device_id m w htype]
    refine ⟨fun hp => ?_, fun hsave => ?_⟩
    · simp [WebSocketManager.handle_location_update, hp]
    · simp only [WebSocketManager.handle_location_update]
      split
      · rfl
      · simp [hsave]
  · have hrun : WebSocketManager.handle_device_message env device_id m w = (w, []) ∨
        ∃ si, WebSocketManager.handle_device_message env device_id m w =
          (SessionManager.update_device_data env.now device_id
            { battery_level := some (jInt? (jGet si "battery_level")) } w, []) := by
      rw [dispatch_system env device_id m w htype]
      simp only [WebSocketManager.handle_system_info]
      split
      · exact Or.inl rfl
      · exact Or.inr ⟨_, by rw [if_neg (by simp [hlog])]⟩
    rcases hrun with h | ⟨si, h⟩
    · exact ⟨by rw [h], by rw [h], by rw [h], by rw [h], fun id _ => by rw [h]⟩
    · refine ⟨by rw [h], ?_, ?_, ?_, fun id hid => ?_⟩
      · rw [h]
        exact (SessionManager.update_device_data_frame _ _ _ _).1
      · rw [h]
        exact (SessionManager.update_device_data_frame _ _ _ _).2.1
      · rw [h]
        exact (SessionManager.update_device_data_frame _ _ _ _).2.2
      · rw [h]
        exact update_device_data_sessions_other _ _ _ _ _ hid

/-- Witness for C8: each persisting message type at a concrete failing
environment — base64 failure and insert failure for a camera frame, insert
failure for a location, insert failure for a system-info event (broadcast
suppressed, nothing persisted, connections and other sessions intact). -/
theorem persistence_failures_contained_witness :
    WebSocketManager.handle_device_message envB64Fail "d" camMsg wBase = (wBase, []) ∧
    WebSocketManager.handle_device_message envSaveFail "d" camMsg wBase = (wBase, []) ∧
    WebSocketManager.handle_device_message envLocFail "d" locMsg90 wBase = (wBase, []) ∧
    (WebSocketManager.handle_device_message envLogFail "d" sysMsg wBase).2 = [] ∧
    (WebSocketManager.handle_device_message envLogFail "d" sysMsg wBase).1.storage =
      wBase.storage ∧
    (WebSocketManager.handle_device_message envLogFail "d" sysMsg wBase).1.device_connections =
      wBase.device_connections ∧
    dictGet "e" (WebSocketManager.handle_device_message envLogFail "d" sysMsg wBase).1.sessions =
      dictGet "e" wBase.sessions := by
  obtain ⟨-, hdec, -⟩ :=
    (persistence_failures_contained envB64Fail "d" camMsg wBase).1 rfl
  obtain ⟨-, -, hsave⟩ :=
    (persistence_failures_contained envSaveFail "d" camMsg wBase).1 rfl
  obtain ⟨-, hloc⟩ :=
    (persistence_failures_contained envLocFail "d" locMsg90 wBase).2.1 rfl
  obtain ⟨hs1, hs2, hs3, -, hs5⟩ :=
    (persistence_failures_contained envLogFail "d" sysMsg wBase).2.2 rfl rfl
  exact ⟨hdec _ rfl rfl, hsave rfl, hloc rfl, hs1, hs2, hs3, hs5 "e" (by decide)⟩

theorem ping_updates_connection_only_witness :
    (WebSocketManager.handle_device_message envOK "d" pingMsg wBase).1.sessions =
      wBase.sessions ∧
    (WebSocketManager.handle_device_message envOK "d" pingMsg wBase).1.storage =
      wBase.storage ∧
    (WebSocketManager.handle_device_message envOK "d" pingMsg wBase).1.admin_connections =
      wBase.admin_connections ∧
    (WebSocketManager.handle_device_message envOK "d" pingMsg wBase).2 = [] ∧
    (∀ c, dictGet "d" wBase.device_connections = some c →
      (WebSocketManager.handle_device_message envOK "d" pingMsg wBase).1.device_connections =
        dictSet "d" { c with last_seen := envOK.now } wBase.device_connections) ∧
    (dictGet "d" wBase.device_connections = none →
      (WebSocketManager.handle_device_message envOK "d" pingMsg wBase).1.device_connections =
        wBase.device_connections) :=
  ping_updates_connection_only envOK "d" pingMsg wBase rfl

theorem foldl_laterFrame_sources (l : List CameraFrameRow) :
    ∀ (acc : Option CameraFrameRow) (b : CameraFrameRow),
      l.foldl laterFrame acc = some b → acc = some b ∨ b ∈ l := by
  induction l with
  | nil => exact fun acc b h => Or.inl h
  | cons f t ih =>
      intro acc b h
      simp only [List.foldl_cons] at h
      rcases ih _ b h with hacc | hmem
      · cases acc with
        | none =>
            simp only [laterFrame] at hacc
            cases hacc
            exact Or.inr (by simp)
        | some a =>
            simp only [laterFrame] at hacc
            by_cases hlt : a.timestamp < f.timestamp
            · rw [if_pos hlt] at hacc
              cases hacc
              exact Or.inr (by simp)
            · rw [if_neg hlt] at hacc
              exact Or.inl hacc
      · exact Or.inr (List.mem_cons_of_mem _ hmem)

theorem latest_append (fl : List CameraFrameRow) (device_id camera : String)
    (row : CameraFrameRow) (hdev : row.device_id = device_id)
    (hcam : row.camera = camera)
    (hmax : ∀ f ∈ fl, f.device_id = device_id → f.camera = camera →
      f.timestamp < row.timestamp) :
    ((fl ++ [row]).filter
      (fun f => f.device_id == device_id && f.camera == camera)).foldl
        laterFrame none = some row := by
  have hrowp : (row.device_id == device_id && row.camera == camera) = true := by
    simp [hdev, hcam]
  rw [List.filter_append]
  have hsingle : [row].filter
      (fun f => f.device_id == device_id && f.camera == camera) = [row] := by
    simp [List.filter_cons, hrowp]
  rw [hsingle, List.foldl_append]
  rcases hA : (fl.filter
      (fun f => f.device_id == device_id && f.camera == camera)).foldl
        laterFrame none with _ | b
  · rw [hA]
    simp [laterFrame]
  · have hb : b ∈ fl.filter (fun f => f.device_id == device_id && f.camera == camera) := by
      rcases foldl_laterFrame_sources _ _ _ hA with h | h
      · exact absurd h (by simp)
      · exact h
    rw [List.mem_filter] at hb
    have hprops := hb.2
    rw [Bool.and_eq_true] at hprops
    have hbt : b.timestamp < row.timestamp :=
      hmax b hb.1 (by simpa using hprops.1) (by simpa using hprops.2)
    rw [hA]
    simp [laterFrame, hbt]

/-- C2 counterexample: with a frame of device timestamp 10 already stored,
handling a valid `camera_frame` of timestamp 5 persists exactly one new
record, but `get_latest_frame` returns the old frame, whose width (640) and
timestamp (10) differ from the message's (320, 5) — refuting the round-trip
as universally stated. -/
theorem camera_frame_latest_shadowed :
    (WebSocketManager.handle_device_message envOK "d" camMsg wOld).1.storage.frames.length = 2 ∧
    (WebSocketManager.handle_device_message envOK "d" camMsg wOld).1.storage.get_latest_frame
      "d" "front" = some oldFrame ∧
    oldFrame.width ≠ 320 ∧ oldFrame.timestamp ≠ 5 :=
  ⟨rfl, rfl, by decide, by decide⟩

/-- C2 (amended): for every `camera_frame` message with valid base64 bytes
whose timestamp exceeds that of every frame already stored for that identity
and camera (in particular from an empty store), handling persists exactly one
frame record, `get_latest_frame` returns that record with the message's
width, height and timestamp, and exactly one metadata-only broadcast is
emitted whose payload is precisely type, device id, camera, timestamp, width
and height — the image bytes never appear in it. -/
theorem camera_frame_roundtrip (env : Env) (device_id : String) (m : RMsg)
    (frame : CameraFrame) (bytes : List Nat) (w : World)
    (htype : jGet m "type" = some (.s "camera_frame"))
    (hp : CameraFrame.parse m = some frame)
    (hdec : env.b64decode frame.data = some bytes)
    (hok : env.saveFrameOk = true)
    (hmax : ∀ f ∈ w.storage.frames, f.device_id = device_id →
      f.camera = frame.camera → f.timestamp < frame.timestamp) :
    (WebSocketManager.handle_device_message env device_id m w).1.storage.frames =
      w.storage.frames ++
        [{ id := w.storage.nextId, device_id := device_id, camera := frame.camera,
           frame_data := bytes, width := frame.width, height := frame.height,
           timestamp := frame.timestamp, created_at := env.now }] ∧
    (WebSocketManager.handle_device_message env device_id m w).1.storage.get_latest_frame
        device_id frame.camera =
      some { id := w.storage.nextId, device_id := device_id, camera := frame.camera,
             frame_data := bytes, width := frame.width, height := frame.height,
             timestamp := frame.timestamp, created_at := env.now } ∧
    (WebSocketManager.handle_device_message env device_id m w).2 =
      [JVal.obj [("type", .s "camera_frame"), ("device_id", .s device_id),
        ("camera", .s frame.camera), ("timestamp", .i frame.timestamp),
        ("width", .i frame.width), ("height", .i frame.height)]] := by
  rw [dispatch_camera env device_id m w htype]
  simp only [WebSocketManager.handle_camera_frame, hp, hdec, hok, if_true]
  refine ⟨?_, ?_, ?_⟩
  · rw [(broadcast_frame _ _ _ _).1, (SessionManager.update_device_data_frame _ _ _ _).1]
    rfl
  · rw [(broadcast_frame _ _ _ _).1, (SessionManager.update_device_data_frame _ _ _ _).1]
    exact latest_append w.storage.frames device_id frame.camera _ rfl rfl hmax
  · trivial

theorem camera_frame_roundtrip_witness :
    (WebSocketManager.handle_device_message envOK "d" camMsg wBase).1.storage.frames =
      wBase.storage.frames ++
        [{ id := wBase.storage.nextId, device_id := "d", camera := "front",
           frame_data := [104, 105], width := 320, height := 240,
           timestamp := 5, created_at := envOK.now }] ∧
    (WebSocketManager.handle_device_message envOK "d" camMsg wBase).1.storage.get_latest_frame
        "d" "front" =
      some { id := wBase.storage.nextId, device_id := "d", camera := "front",
             frame_data := [104, 105], width := 320, height := 240,
             timestamp := 5, created_at := envOK.now } ∧
    (WebSocketManager.handle_device_message envOK "d" camMsg wBase).2 =
      [JVal.obj [("type", .s "camera_frame"), ("device_id", .s "d"),
        ("camera", .s "front"), ("timestamp", .i 5),
        ("width", .i 320), ("height", .i 240)]] :=
  camera_frame_roundtrip envOK "d" camMsg
    { camera := "front", data := "aGk=", width := 320, height := 240, timestamp := 5 }
    [104, 105] wBase rfl rfl rfl rfl
    (fun f hf => absurd hf (List.not_mem_nil f))

theorem dictGet_append_of_isSome {α : Type} {k : String} {l l₂ : List (String × α)}
    (h : (dictGet k l).isSome) : dictGet k (l ++ l₂) = dictGet k l := by
  induction l with
  | nil => simp [dictGet] at h
  | cons p t ih =>
      obtain ⟨a, b⟩ := p
      rw [List.cons_append, dictGet_cons, dictGet_cons]
      by_cases ha : a = k
      · rw [if_pos ha, if_pos ha]
      · rw [if_neg ha, if_neg ha]
        rw [dictGet_cons, if_neg ha] at h
        exact ih h

theorem dictGet_mem_values {α : Type} {k : String} {l : List (String × α)} {v : α}
    (h : dictGet k l = some v) : v ∈ l.map Prod.snd := by
  simp only [dictGet] at h
  rcases hf : l.find? (fun p => p.1 == k) with _ | p
  · rw [hf] at h
    cases h
  · rw [hf] at h
    have hv : p.2 = v := by simpa using h
    exact List.mem_map.mpr ⟨p, List.mem_of_find?_eq_some hf, hv⟩

theorem mem_dictSet {α : Type} {k : String} {v : α} {l : List (String × α)}
    {p : String × α} (h : p ∈ dictSet k v l) :
    p = (k, v) ∨ (p ∈ l ∧ ¬(p.1 = k)) := by
  by_cases hmem : l.any (fun q => q.1 == k) = true
  · unfold dictSet at h
    rw [if_pos hmem] at h
    rcases List.mem_map.mp h with ⟨q, hq, heq⟩
    by_cases hqk : q.1 = k
    · left
      rw [← heq]
      simp [hqk]
    · right
      have hb : (q.1 == k) = false := by simpa using hqk
      rw [← heq]
      simp only [hb, Bool.false_eq_true, if_false]
      exact ⟨hq, hqk⟩
  · have hnone : dictGet k l = none := by
      rw [dictGet_eq_none]
      intro q hq hqk
      exact hmem (List.any_eq_true.mpr ⟨q, hq, by simp [hqk]⟩)
    rw [dictSet_absent v hnone] at h
    rcases List.mem_append.mp h with hl | hr
    · right
      refine ⟨hl, fun hpk => ?_⟩
      exact absurd (dictGet_eq_none.mp hnone _ hl) (fun hn => hn hpk)
    · left
      simpa using hr

theorem register_sessions_pres (now : Nat) (tok : String) (info : DeviceInfo)
    (w : World) (id : String) (h : (dictGet id w.sessions).isSome) :
    (dictGet id (SessionManager.register_device now tok info w).1.sessions).isSome := by
  rcases hs : dictGet info.id w.sessions with _ | s
  · rw [register_sessions_absent now tok info w hs, dictGet_append_of_isSome h]
    exact h
  · rw [register_sessions_present now tok info w s hs]
    exact dictGet_dictSet_isSome _ _ _ h

theorem update_device_data_sessions_pres (now : Nat) (id' : String)
    (data : UpdatePayload) (w : World) (id : String)
    (h : (dictGet id w.sessions).isSome) :
    (dictGet id (SessionManager.update_device_data now id' data w).sessions).isSome := by
  unfold SessionManager.update_device_data
  rcases hs : dictGet id' w.sessions with _ | s
  · exact h
  · exact dictGet_dictSet_isSome _ _ _ h

theorem sm_disconnect_sessions_pres (id' : String) (w : World) (id : String)
    (h : (dictGet id w.sessions).isSome) :
    (dictGet id (SessionManager.disconnect_device id' w).sessions).isSome := by
  unfold SessionManager.disconnect_device
  rcases hs : dictGet id' w.sessions with _ | s
  · exact h
  · exact dictGet_dictSet_isSome _ _ _ h

theorem sm_disconnect_sessions_eq (id' : String) (w : World) (s : DeviceSession)
    (hs : dictGet id' w.sessions = some s) :
    (SessionManager.disconnect_device id' w).sessions =
      dictSet id' { s with is_online := false } w.sessions := by
  unfold SessionManager.disconnect_device
  rw [hs]

theorem connect_device_sessions_pres (env : Env) (tok : String) (info : DeviceInfo)
    (ws : Nat) (w : World) (id : String) (h : (dictGet id w.sessions).isSome) :
    (dictGet id (WebSocketManager.connect_device env tok info ws w).1.sessions).isSome := by
  rw [connect_sessions]
  exact register_sessions_pres env.now tok info w id h

theorem sm_disconnect_conn_inv (id' : String) (w : World)
    (X : List (String × DeviceConnection)) :
    (SessionManager.disconnect_device id' { w with device_connections := X }).sessions =
      (SessionManager.disconnect_device id' w).sessions := by
  unfold SessionManager.disconnect_device
  rcases hs : dictGet id' w.sessions with _ | s <;> rfl

theorem ws_disconnect_sessions_present (env : Env) (device_id : String) (w : World)
    (hc : (dictGet device_id w.device_connections).isSome = true) :
    (WebSocketManager.disconnect_device env device_id w).1.sessions =
      (SessionManager.disconnect_device device_id w).sessions := by
  simp only [WebSocketManager.disconnect_device, hc, if_pos]
  exact sm_disconnect_conn_inv device_id w _

theorem ws_disconnect_sessions_pres (env : Env) (id' : String) (w : World)
    (id : String) (h : (dictGet id w.sessions).isSome) :
    (dictGet id (WebSocketManager.disconnect_device env id' w).1.sessions).isSome := by
  by_cases hc : (dictGet id' w.device_connections).isSome = true
  · rw [ws_disconnect_sessions_present env id' w hc]
    exact sm_disconnect_sessions_pres id' w id h
  · rw [ws_disconnect_noop env id' w hc]
    exact h

theorem handle_camera_sessions_pres (env : Env) (id' : String) (m : RMsg)
    (w : World) (id : String) (h : (dictGet id w.sessions).isSome) :
    (dictGet id (WebSocketManager.handle_camera_frame env id' m w).1.sessions).isSome := by
  simp only [WebSocketManager.handle_camera_frame]
  split
  · exact h
  · split
    · exact h
    · split
      · exact update_device_data_sessions_pres _ _ _ _ _ h
      · exact h

theorem handle_location_sessions_pres (env : Env) (id' : String) (m : RMsg)
    (w : World) (id : String) (h : (dictGet id w.sessions).isSome) :
    (dictGet id (WebSocketManager.handle_location_update env id' m w).1.sessions).isSome := by
  simp only [WebSocketManager.handle_location_update]
  split
  · exact h
  · split
    · exact update_device_data_sessions_pres _ _ _ _ _ h
    · exact h

theorem handle_system_sessions_pres (env : Env) (id' : String) (m : RMsg)
    (w : World) (id : String) (h : (dictGet id w.sessions).isSome) :
    (dictGet id (WebSocketManager.handle_system_info env id' m w).1.sessions).isSome := by
  simp only [WebSocketManager.handle_system_info]
  split
  · exact h
  · split
    · exact update_device_data_sessions_pres _ _ _ _ _ h
    · exact update_device_data_sessions_pres _ _ _ _ _ h

theorem handle_message_sessions_pres (env : Env) (id' : String) (m : RMsg)
    (w : World) (id : String) (h : (dictGet id w.sessions).isSome) :
    (dictGet id (WebSocketManager.handle_device_message env id' m w).1.sessions).isSome := by
  simp only [WebSocketManager.handle_device_message]
  split
  · exact handle_camera_sessions_pres env id' m w id h
  · exact handle_location_sessions_pres env id' m w id h
  · exact handle_system_sessions_pres env id' m w id h
  · split
    · exact h
    · exact h
  · exact h

theorem send_command_sessions_pres (env : Env) (id' : String) (cmd : DeviceCommand)
    (w : World) (id : String) (h : (dictGet id w.sessions).isSome) :
    (dictGet id (WebSocketManager.send_command env id' cmd w).1.sessions).isSome := by
  simp only [WebSocketManager.send_command]
  split
  · exact h
  · split
    · exact h
    · exact h

theorem hub_disconnect_marks_offline (env : Env) (id' : String) (w : World)
    (s : DeviceSession) (hs : dictGet id' w.sessions = some s)
    (hc : (dictGet id' w.device_connections).isSome = true) :
    dictGet id' (WebSocketManager.disconnect_device env id' w).1.sessions =
      some { s with is_online := false } ∧
    { s with is_online := false } ∈
      SessionManager.get_all_devices (WebSocketManager.disconnect_device env id' w).1 ∧
    ((∀ p ∈ w.sessions, p.2.device_id = p.1) →
      ∀ t ∈ SessionManager.get_online_devices
        (WebSocketManager.disconnect_device env id' w).1, t.device_id ≠ id') := by
  have hsess : (WebSocketManager.disconnect_device env id' w).1.sessions =
      dictSet id' { s with is_online := false } w.sessions :=
    (ws_disconnect_sessions_present env id' w hc).trans
      (sm_disconnect_sessions_eq id' w s hs)
  refine ⟨?_, ?_, ?_⟩
  · rw [hsess]
    exact dictGet_dictSet_self _ _ _
  · unfold SessionManager.get_all_devices
    rw [hsess]
    exact dictGet_mem_values (dictGet_dictSet_self _ _ _)
  · intro hcons t ht
    unfold SessionManager.get_online_devices at ht
    rw [hsess] at ht
    rw [List.mem_filter] at ht
    rcases List.mem_map.mp ht.1 with ⟨p, hp, hpt⟩
    rcases mem_dictSet hp with hnew | ⟨hold, hne⟩
    · rw [hnew] at hpt
      rw [← hpt] at ht
      simpa using ht.2
    · intro htid
      apply hne
      rw [← hcons p hold, hpt, htid]

/-- C7: the session registry only grows and is never purged: once an identity
has a DeviceSession, every Hub operation — connecting any device,
disconnecting any device, handling any inbound message, admin connects and
disconnects, command sends and admin broadcasts — leaves the identity present
in the session map. Disconnecting flips the session's online flag to false
only, so the session is still listed by `get_all_devices` while (under the
registry's key-consistency invariant) `get_online_devices` excludes it. -/
theorem session_registry_never_removes :
    (∀ (env : Env) (tok : String) (info : DeviceInfo) (ws : Nat) (w : World)
        (id : String), (dictGet id w.sessions).isSome →
      (dictGet id (WebSocketManager.connect_device env tok info ws w).1.sessions).isSome) ∧
    (∀ (env : Env) (id' : String) (w : World) (id : String),
        (dictGet id w.sessions).isSome →
      (dictGet id (WebSocketManager.disconnect_device env id' w).1.sessions).isSome) ∧
    (∀ (env : Env) (id' : String) (m : RMsg) (w : World) (id : String),
        (dictGet id w.sessions).isSome →
      (dictGet id (WebSocketManager.handle_device_message env id' m w).1.sessions).isSome) ∧
    (∀ (ws : Nat) (w : World) (id : String), (dictGet id w.sessions).isSome →
      (dictGet id (WebSocketManager.connect_admin ws w).1.sessions).isSome) ∧
    (∀ (ws : Nat) (w : World) (id : String), (dictGet id w.sessions).isSome →
      (dictGet id (WebSocketManager.disconnect_admin ws w).sessions).isSome) ∧
    (∀ (env : Env) (id' : String) (cmd : DeviceCommand) (w : World) (id : String),
        (dictGet id w.sessions).isSome →
      (dictGet id (WebSocketManager.send_command env id' cmd w).1.sessions).isSome) ∧
    (∀ (env : Env) (p : JVal) (ex : Option Nat) (w : World) (id : String),
        (dictGet id w.sessions).isSome →
      (dictGet id (WebSocketManager.broadcast_to_admins env p ex w).1.sessions).isSome) ∧
    (∀ (env : Env) (id' : String) (w : World) (s : DeviceSession),
        dictGet id' w.sessions = some s →
        (dictGet id' w.device_connections).isSome = true →
      dictGet id' (WebSocketManager.disconnect_device env id' w).1.sessions =
        some { s with is_online := false } ∧
      { s with is_online := false } ∈
        SessionManager.get_all_devices (WebSocketManager.disconnect_device env id' w).1 ∧
      ((∀ p ∈ w.sessions, p.2.device_id = p.1) →
        ∀ t ∈ SessionManager.get_online_devices
          (WebSocketManager.disconnect_device env id' w).1, t.device_id ≠ id')) :=
  ⟨connect_device_sessions_pres,
   ws_disconnect_sessions_pres,
   handle_message_sessions_pres,
   fun _ _ _ h => h,
   fun _ _ _ h => h,
   send_command_sessions_pres,
   fun _ _ _ _ _ h => h,
   hub_disconnect_marks_offline⟩

/-- Witness for C7 on the concrete world `wBase` with identity `"d"`. -/
theorem session_registry_never_removes_witness :
    (dictGet "d" (WebSocketManager.connect_device envOK "t" infoD 9 wBase).1.sessions).isSome ∧
    (dictGet "d" (WebSocketManager.disconnect_device envOK "d" wBase).1.sessions).isSome ∧
    (dictGet "d" (WebSocketManager.handle_device_message envOK "d" camMsg wBase).1.sessions).isSome ∧
    (dictGet "d" (WebSocketManager.connect_admin 9 wBase).1.sessions).isSome ∧
    (dictGet "d" (WebSocketManager.disconnect_admin 1 wBase).sessions).isSome ∧
    (dictGet "d" (WebSocketManager.send_command envOK "d" cmdW wBase).1.sessions).isSome ∧
    (dictGet "d" (WebSocketManager.broadcast_to_admins envOK evtW none wBase).1.sessions).isSome ∧
    dictGet "d" (WebSocketManager.disconnect_device envOK "d" wBase).1.sessions =
      some { sessD with is_online := false } ∧
    (∀ t ∈ SessionManager.get_online_devices
      (WebSocketManager.disconnect_device envOK "d" wBase).1, t.device_id ≠ "d") := by
  obtain ⟨h1, h2, h3, h4, h5, h6, h7, h8⟩ := session_registry_never_removes
  obtain ⟨ha, hb, hc⟩ := h8 envOK "d" wBase sessD rfl rfl
  exact ⟨h1 envOK "t" infoD 9 wBase "d" rfl, h2 envOK "d" wBase "d" rfl,
    h3 envOK "d" camMsg wBase "d" rfl, h4 9 wBase "d" rfl, h5 1 wBase "d" rfl,
    h6 envOK "d" cmdW wBase "d" rfl, h7 envOK evtW none wBase "d" rfl,
    ha, hc (by decide)⟩

theorem find?_append_none {α : Type} (p : α → Bool) (l l₂ : List α)
    (h : l.find? p = none) : (l ++ l₂).find? p = l₂.find? p := by
  induction l with
  | nil => rfl
  | cons a t ih =>
      have h' := List.find?_eq_none.mp h
      rw [List.cons_append, List.find?_cons_of_neg _ (h' a (by simp))]
      exact ih (List.find?_eq_none.mpr fun x hx => h' x (by simp [hx]))

theorem find?_map_update (l : List Device) (did : String) (upd : Device → Device)
    (hid : ∀ d, (upd d).id = d.id) (p : Device)
    (h : l.find? (fun d => d.id == did) = some p) :
    (l.map (fun d => if d.id == did then upd d else d)).find?
      (fun d => d.id == did) = some (upd p) := by
  induction l with
  | nil => cases h
  | cons d t ih =>
      by_cases hd : d.id = did
      · have hb : (d.id == did) = true := by simpa using hd
        rw [@List.find?_cons_of_pos _ (fun x => x.id == did) d t hb] at h
        cases h
        have hb2 : ((upd p).id == did) = true := by
          rw [hid p]
          exact hb
        rw [List.map_cons, if_pos hb]
        exact @List.find?_cons_of_pos _ (fun x => x.id == did) (upd p) _ hb2
      · have hb : ¬((d.id == did) = true) := by simpa using hd
        rw [@List.find?_cons_of_neg _ (fun x => x.id == did) d t hb] at h
        rw [List.map_cons, if_neg hb]
        rw [@List.find?_cons_of_neg _ (fun x => x.id == did) d _ hb]
        exact ih h

/-- C10: re-registering an already-known device never changes its stored
authentication token: when a DeviceProfile exists, `register_device` updates
name, model, manufacturer, OS version, SDK (and IMEI when one is provided;
a `None` IMEI leaves the stored one) but the token field is exactly the old
one; a fresh token is stored only when the identity is unknown and a new
profile is created. -/
theorem register_device_preserves_token (now : Nat) (tok : String)
    (info : DeviceInfo) (w : World) :
    (∀ p, Storage.get_device w.storage info.id = some p →
      ∃ p', Storage.get_device
          (SessionManager.register_device now tok info w).1.storage info.id = some p' ∧
        p'.token = p.token ∧ p'.name = info.name ∧ p'.model = some info.model ∧
        p'.manufacturer = some info.manufacturer ∧
        p'.android_version = some info.android_version ∧ p'.sdk = some info.sdk ∧
        (∀ x, info.imei = some x → p'.imei = some x) ∧
        (info.imei = none → p'.imei = p.imei)) ∧
    (Storage.get_device w.storage info.id = none →
      ∃ p', Storage.get_device
          (SessionManager.register_device now tok info w).1.storage info.id = some p' ∧
        p'.token = tok) := by
  constructor
  · intro p hp
    have hdev : (SessionManager.register_device now tok info w).1.storage.devices =
        (w.storage.update_device now info.id (some info.name) info.imei
          (some info.model) (some info.manufacturer) (some info.android_version)
          (some info.sdk)).devices := by
      simp only [SessionManager.register_device, hp]
      rcases dictGet info.id w.sessions with _ | s <;> rfl
    have hcond : (w.storage.get_device info.id).isSome = true := by
      rw [hp]
      rfl
    have hupd : (w.storage.update_device now info.id (some info.name) info.imei
        (some info.model) (some info.manufacturer) (some info.android_version)
        (some info.sdk)).devices =
        w.storage.devices.map (fun d =>
          if d.id == info.id then
            { d with name := info.name,
                     imei := setIfSome d.imei (info.imei.map some),
                     model := some info.model,
                     manufacturer := some info.manufacturer,
                     android_version := some info.android_version,
                     sdk := some info.sdk,
                     last_seen := now }
          else d) := by
      simp [Storage.update_device, hcond, setIfSome]
    have hfind : ((SessionManager.register_device now tok info w).1.storage.devices).find? (fun d => d.id == info.id) = some { p with name := info.name, imei := setIfSome p.imei (info.imei.map some), model := some info.model, manufacturer := some info.manufacturer, android_version := some info.android_version, sdk := some info.sdk, last_seen := now } := by
      rw [hdev, hupd]
      exact find?_map_update w.storage.devices info.id (fun d => { d with name := info.name, imei := setIfSome d.imei (info.imei.map some), model := some info.model, manufacturer := some info.manufacturer, android_version := some info.android_version, sdk := some info.sdk, last_seen := now }) (fun d => rfl) p hp
    exact ⟨_, hfind, rfl, rfl, rfl, rfl, rfl, rfl,
      fun x hx => by rw [hx]; rfl, fun hx => by rw [hx]; rfl⟩
  · intro hnone
    have hdev2 : (SessionManager.register_device now tok info w).1.storage.devices =
        w.storage.devices ++
          [{ id := info.id, name := info.name, token := tok, imei := info.imei,
             model := some info.model, manufacturer := some info.manufacturer,
             android_version := some info.android_version, sdk := some info.sdk,
             created_at := now, last_seen := now, is_active := true }] := by
      simp only [SessionManager.register_device, hnone]
      rcases dictGet info.id w.sessions with _ | s <;> rfl
    have hfind2 : ((SessionManager.register_device now tok info w).1.storage.devices).find? (fun d => d.id == info.id) = some { id := info.id, name := info.name, token := tok, imei := info.imei, model := some info.model, manufacturer := some info.manufacturer, android_version := some info.android_version, sdk := some info.sdk, created_at := now, last_seen := now, is_active := true } := by
      rw [hdev2, find?_append_none _ _ _ hnone]
      exact @List.find?_cons_of_pos Device (fun d => d.id == info.id) { id := info.id, name := info.name, token := tok, imei := info.imei, model := some info.model, manufacturer := some info.manufacturer, android_version := some info.android_version, sdk := some info.sdk, created_at := now, last_seen := now, is_active := true } [] (by simp)
    exact ⟨_, hfind2, rfl⟩

theorem register_device_preserves_token_witness :
    (∃ p', Storage.get_device
        (SessionManager.register_device 7 "tok-fresh" infoD wDev).1.storage "d" =
        some p' ∧ p'.token = "tok-original") ∧
    (∃ p', Storage.get_device
        (SessionManager.register_device 7 "tok-fresh" infoD w0).1.storage "d" =
        some p' ∧ p'.token = "tok-fresh") := by
  obtain ⟨h1, -⟩ := register_device_preserves_token 7 "tok-fresh" infoD wDev
  obtain ⟨p', hp', htok, -⟩ := h1 deviceRowD rfl
  exact ⟨⟨p', hp', htok⟩,
    (register_device_preserves_token 7 "tok-fresh" infoD w0).2 rfl⟩
